import Mathlib

/-!
# Host-function shim of `mquickjs-sys` (`src/stdlib_stubs.c`, `wrapper.h`)

A shallow embedding of the C shim that exposes the default builtins
(`js_print`, `js_gc`, `js_date_now`, `js_performance_now`, `js_load`,
`js_setTimeout`, `js_clearTimeout`) and the single override point
`JS_SetHostCallback`.

Modelling choices.

* `mquickjs.h` is not part of the sources, so the types it declares are
  parameters: `Ctx` is what a `JSContext *` denotes, `V` is `JSValue`, and the
  constant `JS_UNDEFINED : V` is passed to every function that returns it.
* `JSValue *this_val` is modelled by the receiver value it points to and
  `JSValue *argv` by the argument array it points to (a `List V`); `int argc`
  is an `Int` (no arithmetic is performed on it, so no wrap-around matters).
* A function pointer is its address (`Nat`), the null pointer is `0`. What
  the code behind an address does when it is called is given by a
  `ForeignCode` table: a state transformer that also produces the returned
  value. Foreign code may change the callback slot (by calling
  `JS_SetHostCallback`) and the rest of the world `W`.
* The file-scope variable `host_callback` is a field of the explicit program
  state `State W`; every C function becomes a function on that state.
* Each function reports an `Outcome`: the returned value, the state after the
  call, and the list of indirect calls that the function body itself
  performed, in order.
-/

namespace MQuickJS

/-- The C type `JSHostCallback`: a function pointer, represented by its address. -/
abbrev JSHostCallback := Nat

/-- The null function pointer. -/
def NULL : JSHostCallback := 0

/-- The four parameters of the native calling convention
`(JSContext *ctx, JSValue *this_val, int argc, JSValue *argv)`. -/
structure CallArgs (Ctx V : Type) where
  ctx : Ctx
  this_val : V
  argc : Int
  argv : List V
deriving DecidableEq, Repr

/-- One call through a function pointer: the callee and the arguments it received. -/
structure Invocation (Ctx V : Type) where
  fn : JSHostCallback
  args : CallArgs Ctx V
deriving DecidableEq, Repr

/-- Program state: the file-scope variable `host_callback` of `stdlib_stubs.c`
together with the rest of the world, which only foreign code touches. -/
structure State (W : Type) where
  host_callback : JSHostCallback
  world : W
deriving DecidableEq, Repr

/-- What a call of a C function of the shim produced. -/
structure Outcome (Ctx V W : Type) where
  ret : V
  st : State W
  calls : List (Invocation Ctx V)
deriving DecidableEq, Repr

/-- Behaviour of the code behind each function address: called with the four
arguments in a state, it returns a value and leaves a state. -/
abbrev ForeignCode (Ctx V W : Type) :=
  JSHostCallback → Ctx → V → Int → List V → State W → V × State W

/-- A native function as the engine calls it. -/
abbrev NativeFn (Ctx V W : Type) :=
  Ctx → V → Int → List V → State W → Outcome Ctx V W

/-- The state at program start: `static JSHostCallback host_callback = NULL;`. -/
def initialState {W : Type} (w : W) : State W :=
  { host_callback := NULL, world := w }

/-- `void JS_SetHostCallback(JSHostCallback callback) { host_callback = callback; }` -/
def JS_SetHostCallback {W : Type} (callback : JSHostCallback) (s : State W) : State W :=
  { s with host_callback := callback }

/-- `js_print`: ignores its arguments and returns `JS_UNDEFINED`. -/
def js_print {Ctx V W : Type} (JS_UNDEFINED : V) : NativeFn Ctx V W :=
  fun _ctx _this_val _argc _argv s => { ret := JS_UNDEFINED, st := s, calls := [] }

/-- `js_gc`: ignores its arguments and returns `JS_UNDEFINED`. -/
def js_gc {Ctx V W : Type} (JS_UNDEFINED : V) : NativeFn Ctx V W :=
  fun _ctx _this_val _argc _argv s => { ret := JS_UNDEFINED, st := s, calls := [] }

/-- `js_date_now`: ignores its arguments and returns `JS_UNDEFINED`. -/
def js_date_now {Ctx V W : Type} (JS_UNDEFINED : V) : NativeFn Ctx V W :=
  fun _ctx _this_val _argc _argv s => { ret := JS_UNDEFINED, st := s, calls := [] }

/-- `js_performance_now`: ignores its arguments and returns `JS_UNDEFINED`. -/
def js_performance_now {Ctx V W : Type} (JS_UNDEFINED : V) : NativeFn Ctx V W :=
  fun _ctx _this_val _argc _argv s => { ret := JS_UNDEFINED, st := s, calls := [] }

/-- `js_load`: `if (host_callback) return host_callback(ctx, this_val, argc, argv);
return JS_UNDEFINED;`. The slot is read once; the call through it is the only
thing the body does in the first branch. -/
def js_load {Ctx V W : Type} (code : ForeignCode Ctx V W) (JS_UNDEFINED : V) :
    NativeFn Ctx V W :=
  fun ctx this_val argc argv s =>
    if s.host_callback ≠ NULL then
      { ret := (code s.host_callback ctx this_val argc argv s).1
        st := (code s.host_callback ctx this_val argc argv s).2
        calls := [{ fn := s.host_callback
                    args := { ctx := ctx, this_val := this_val, argc := argc, argv := argv } }] }
    else
      { ret := JS_UNDEFINED, st := s, calls := [] }

/-- `js_setTimeout`: ignores its arguments and returns `JS_UNDEFINED`. -/
def js_setTimeout {Ctx V W : Type} (JS_UNDEFINED : V) : NativeFn Ctx V W :=
  fun _ctx _this_val _argc _argv s => { ret := JS_UNDEFINED, st := s, calls := [] }

/-- `js_clearTimeout`: ignores its arguments and returns `JS_UNDEFINED`. -/
def js_clearTimeout {Ctx V W : Type} (JS_UNDEFINED : V) : NativeFn Ctx V W :=
  fun _ctx _this_val _argc _argv s => { ret := JS_UNDEFINED, st := s, calls := [] }

/-- A run of `JS_SetHostCallback` calls, one per element of `cbs`, in order. -/
def JS_SetHostCallback_seq {W : Type} (cbs : List JSHostCallback) (s : State W) : State W :=
  cbs.foldl (fun st cb => JS_SetHostCallback cb st) s

/-- A run of `js_load` calls, one per argument tuple, in order, threading the
state; returns the outcome of every call and the final state. -/
def js_load_seq {Ctx V W : Type} (code : ForeignCode Ctx V W) (JS_UNDEFINED : V) :
    List (CallArgs Ctx V) → State W → List (Outcome Ctx V W) × State W
  | [], s => ([], s)
  | a :: rest, s =>
    ((js_load code JS_UNDEFINED a.ctx a.this_val a.argc a.argv s) ::
        (js_load_seq code JS_UNDEFINED rest
          (js_load code JS_UNDEFINED a.ctx a.this_val a.argc a.argv s).st).1,
      (js_load_seq code JS_UNDEFINED rest
          (js_load code JS_UNDEFINED a.ctx a.this_val a.argc a.argv s).st).2)

/-- Reference run for `js_load_seq`: the function at address `f` is called
directly, once per argument tuple, in order, threading the state. -/
def direct_call_seq {Ctx V W : Type} (code : ForeignCode Ctx V W) (f : JSHostCallback) :
    List (CallArgs Ctx V) → State W → List (Outcome Ctx V W) × State W
  | [], s => ([], s)
  | a :: rest, s =>
    ({ ret := (code f a.ctx a.this_val a.argc a.argv s).1
       st := (code f a.ctx a.this_val a.argc a.argv s).2
       calls := [{ fn := f, args := a }] } ::
        (direct_call_seq code f rest (code f a.ctx a.this_val a.argc a.argv s).2).1,
      (direct_call_seq code f rest (code f a.ctx a.this_val a.argc a.argv s).2).2)

/-- The function table: an ordered mapping from builtin name to native function. -/
abbrev FunctionTable (Ctx V W : Type) := List (String × NativeFn Ctx V W)

/-- Modelled from the spec: the definition of the table `js_stdlib`, which
`wrapper.h` only declares (`extern const JSSTDLibraryDef js_stdlib;`), is not
among the sources. Following the specification, `register_default_functions`
returns the fixed set of builtin bindings `print`, `gc`, `date_now`,
`performance_now`, `load`, `set_timeout`, `clear_timeout` mapped to their native
implementations, and has no side effect (the state is handed back as it came). -/
def register_default_functions {Ctx V W : Type} (code : ForeignCode Ctx V W)
    (JS_UNDEFINED : V) (s : State W) : FunctionTable Ctx V W × State W :=
  ([("print", js_print JS_UNDEFINED),
    ("gc", js_gc JS_UNDEFINED),
    ("date_now", js_date_now JS_UNDEFINED),
    ("performance_now", js_performance_now JS_UNDEFINED),
    ("load", js_load code JS_UNDEFINED),
    ("set_timeout", js_setTimeout JS_UNDEFINED),
    ("clear_timeout", js_clearTimeout JS_UNDEFINED)], s)

/-- Sample foreign code used to instantiate the theorems: the function at
address `1` returns `42` and touches nothing; the one at address `2` counts its
calls in the world and returns the receiver plus the number of arguments; every
other one uninstalls the callback and returns `0`. -/
def sampleCode : ForeignCode Nat Nat Nat :=
  fun fn _ctx this_val _argc argv s =>
    if fn = 1 then (42, s)
    else if fn = 2 then (this_val + argv.length, { s with world := s.world + 1 })
    else (0, JS_SetHostCallback NULL s)

/-! ## Basic facts -/

theorem JS_SetHostCallback_slot {W : Type} (cb : JSHostCallback) (s : State W) :
    (JS_SetHostCallback cb s).host_callback = cb := rfl

theorem JS_SetHostCallback_world {W : Type} (cb : JSHostCallback) (s : State W) :
    (JS_SetHostCallback cb s).world = s.world := rfl

theorem js_load_of_ne_null {Ctx V W : Type} (code : ForeignCode Ctx V W) (undef : V)
    (ctx : Ctx) (this_val : V) (argc : Int) (argv : List V) (s : State W)
    (h : s.host_callback ≠ NULL) :
    js_load code undef ctx this_val argc argv s =
      { ret := (code s.host_callback ctx this_val argc argv s).1
        st := (code s.host_callback ctx this_val argc argv s).2
        calls := [{ fn := s.host_callback
                    args := { ctx := ctx, this_val := this_val, argc := argc, argv := argv } }] } := by
  unfold js_load
  rw [if_pos h]

theorem js_load_of_eq_null {Ctx V W : Type} (code : ForeignCode Ctx V W) (undef : V)
    (ctx : Ctx) (this_val : V) (argc : Int) (argv : List V) (s : State W)
    (h : s.host_callback = NULL) :
    js_load code undef ctx this_val argc argv s = { ret := undef, st := s, calls := [] } := by
  unfold js_load
  rw [if_neg (not_not.mpr h)]

theorem direct_call_seq_slot {Ctx V W : Type} (code : ForeignCode Ctx V W) (f : JSHostCallback)
    (hkeep : ∀ (ctx : Ctx) (this_val : V) (argc : Int) (argv : List V) (s : State W),
      (code f ctx this_val argc argv s).2.host_callback = s.host_callback)
    (as : List (CallArgs Ctx V)) (s : State W) :
    (direct_call_seq code f as s).2.host_callback = s.host_callback
      ∧ ∀ o ∈ (direct_call_seq code f as s).1, o.st.host_callback = s.host_callback := by
  induction as generalizing s with
  | nil => exact ⟨rfl, fun o ho => absurd ho (List.not_mem_nil o)⟩
  | cons a rest ih =>
    have hstep := hkeep a.ctx a.this_val a.argc a.argv s
    have hrest := ih (code f a.ctx a.this_val a.argc a.argv s).2
    refine ⟨?_, ?_⟩
    · show (direct_call_seq code f rest (code f a.ctx a.this_val a.argc a.argv s).2).2.host_callback
        = s.host_callback
      rw [hrest.1, hstep]
    · intro o ho
      rcases List.mem_cons.mp ho with h | h
      · rw [h]
        exact hstep
      · rw [hrest.2 o h, hstep]

theorem js_load_seq_eq_direct {Ctx V W : Type} (code : ForeignCode Ctx V W) (undef : V)
    (f : JSHostCallback) (hf : f ≠ NULL)
    (hkeep : ∀ (ctx : Ctx) (this_val : V) (argc : Int) (argv : List V) (s : State W),
      (code f ctx this_val argc argv s).2.host_callback = s.host_callback)
    (as : List (CallArgs Ctx V)) (s : State W) (hs : s.host_callback = f) :
    js_load_seq code undef as s = direct_call_seq code f as s := by
  induction as generalizing s with
  | nil => rfl
  | cons a rest ih =>
    have hne : s.host_callback ≠ NULL := by rw [hs]; exact hf
    have hload := js_load_of_ne_null code undef a.ctx a.this_val a.argc a.argv s hne
    rw [hs] at hload
    have hnext : (code f a.ctx a.this_val a.argc a.argv s).2.host_callback = f := by
      rw [hkeep a.ctx a.this_val a.argc a.argv s, hs]
    have hrest := ih (code f a.ctx a.this_val a.argc a.argv s).2 hnext
    show (js_load code undef a.ctx a.this_val a.argc a.argv s ::
            (js_load_seq code undef rest
              (js_load code undef a.ctx a.this_val a.argc a.argv s).st).1,
          (js_load_seq code undef rest
              (js_load code undef a.ctx a.this_val a.argc a.argv s).st).2)
        = direct_call_seq code f (a :: rest) s
    rw [hload]
    show (_ :: (js_load_seq code undef rest (code f a.ctx a.this_val a.argc a.argv s).2).1,
          (js_load_seq code undef rest (code f a.ctx a.this_val a.argc a.argv s).2).2) = _
    rw [hrest]
    rfl

theorem js_load_seq_of_eq_null {Ctx V W : Type} (code : ForeignCode Ctx V W) (undef : V)
    (as : List (CallArgs Ctx V)) (s : State W) (h : s.host_callback = NULL) :
    js_load_seq code undef as s =
      (as.map (fun _ => { ret := undef, st := s, calls := [] }), s) := by
  induction as with
  | nil => rfl
  | cons a rest ih =>
    have hload := js_load_of_eq_null code undef a.ctx a.this_val a.argc a.argv s h
    show (js_load code undef a.ctx a.this_val a.argc a.argv s ::
            (js_load_seq code undef rest
              (js_load code undef a.ctx a.this_val a.argc a.argv s).st).1,
          (js_load_seq code undef rest
              (js_load code undef a.ctx a.this_val a.argc a.argv s).st).2) = _
    rw [hload]
    show (_ :: (js_load_seq code undef rest s).1, (js_load_seq code undef rest s).2) = _
    rw [ih]
    rfl

/-- The hypothesis of C8 on the callee cannot be dropped: the sample function
at address `3` uninstalls the callback, and after one `js_load` the slot is
null; the write is the callee's, the state being the one the callee left. -/
theorem self_uninstalling_callback_example :
    (js_load sampleCode 0 7 5 0 [] (JS_SetHostCallback 3 (initialState 0))).st =
        (sampleCode 3 7 5 0 [] (JS_SetHostCallback 3 (initialState 0))).2
      ∧ (js_load sampleCode 0 7 5 0 [] (JS_SetHostCallback 3 (initialState 0))).st.host_callback
        = NULL :=
  ⟨rfl, rfl⟩

/-! ## The claims -/

/-- C1: with a non-null callback `f` installed by `JS_SetHostCallback f`, for
every context, receiver, `argc` and `argv`, `js_load` performs exactly one
indirect call, to `f`, with exactly the arguments it was given, returns the
value `f` returns and leaves the state `f` leaves; in particular, when `f`
returns `v` (for instance `42`) on `(ctx, this, 0, [])`, so does `js_load`. -/
theorem js_load_forwards_to_installed_callback {Ctx V W : Type}
    (code : ForeignCode Ctx V W) (undef : V) (f : JSHostCallback) (hf : f ≠ NULL)
    (ctx : Ctx) (this_val : V) (argc : Int) (argv : List V) (s : State W) :
    js_load code undef ctx this_val argc argv (JS_SetHostCallback f s) =
        { ret := (code f ctx this_val argc argv (JS_SetHostCallback f s)).1
          st := (code f ctx this_val argc argv (JS_SetHostCallback f s)).2
          calls := [{ fn := f
                      args := { ctx := ctx, this_val := this_val, argc := argc, argv := argv } }] }
      ∧ (∀ v : V, (code f ctx this_val 0 [] (JS_SetHostCallback f s)).1 = v →
          (js_load code undef ctx this_val 0 [] (JS_SetHostCallback f s)).ret = v) := by
  have hslot : (JS_SetHostCallback f s).host_callback ≠ NULL := hf
  refine ⟨?_, ?_⟩
  · rw [js_load_of_ne_null code undef ctx this_val argc argv _ hslot]
    rfl
  · intro v hv
    rw [js_load_of_ne_null code undef ctx this_val 0 [] _ hslot]
    exact hv

/-- Instance of C1: the callback at address `1` returns `42`, and so does
`js_load` on `(ctx, this, 0, [])` once it is installed. -/
theorem js_load_forwards_to_installed_callback_witness :
    (1 : JSHostCallback) ≠ NULL ∧
      (js_load sampleCode 0 7 5 0 [] (JS_SetHostCallback 1 (initialState 0))).ret = 42 ∧
      (js_load sampleCode 0 7 5 0 [] (JS_SetHostCallback 1 (initialState 0))).calls =
        [{ fn := 1, args := { ctx := 7, this_val := 5, argc := 0, argv := [] } }] :=
  ⟨by decide,
   (js_load_forwards_to_installed_callback sampleCode 0 1 (by decide) 7 5 0 []
      (initialState 0)).2 42 rfl,
   congrArg Outcome.calls
     (js_load_forwards_to_installed_callback sampleCode 0 1 (by decide) 7 5 0 []
      (initialState 0)).1⟩

/-- C2: when the host callback slot is null, `js_load` returns `JS_UNDEFINED`
for every context, receiver, argument count (zero and negative included) and
argument array, performs no indirect call and leaves the state as it was. -/
theorem js_load_without_callback {Ctx V W : Type}
    (code : ForeignCode Ctx V W) (undef : V)
    (ctx : Ctx) (this_val : V) (argc : Int) (argv : List V) (s : State W)
    (h : s.host_callback = NULL) :
    (js_load code undef ctx this_val argc argv s).ret = undef
      ∧ (js_load code undef ctx this_val argc argv s).calls = []
      ∧ (js_load code undef ctx this_val argc argv s).st = s := by
  rw [js_load_of_eq_null code undef ctx this_val argc argv s h]
  exact ⟨rfl, rfl, rfl⟩

/-- Instance of C2 with a negative argument count. -/
theorem js_load_without_callback_witness :
    (initialState 3 : State Nat).host_callback = NULL ∧
      (js_load sampleCode 9 7 5 (-2) [1, 2] (initialState 3)).ret = 9 ∧
      (js_load sampleCode 9 7 5 (-2) [1, 2] (initialState 3)).calls = [] ∧
      (js_load sampleCode 9 7 5 (-2) [1, 2] (initialState 3)).st = initialState 3 :=
  ⟨rfl, js_load_without_callback sampleCode 9 7 5 (-2) [1, 2] (initialState 3) rfl⟩

/-- C3: each of `js_print`, `js_gc`, `js_date_now`, `js_performance_now`,
`js_setTimeout` and `js_clearTimeout` is a total function that returns
`JS_UNDEFINED` for every context, receiver, argument count and argument array,
in every state of the host callback slot. -/
theorem stubs_return_undefined {Ctx V W : Type} (undef : V)
    (ctx : Ctx) (this_val : V) (argc : Int) (argv : List V) (s : State W) :
    (js_print undef ctx this_val argc argv s).ret = undef
      ∧ (js_gc undef ctx this_val argc argv s).ret = undef
      ∧ (js_date_now undef ctx this_val argc argv s).ret = undef
      ∧ (js_performance_now undef ctx this_val argc argv s).ret = undef
      ∧ (js_setTimeout undef ctx this_val argc argv s).ret = undef
      ∧ (js_clearTimeout undef ctx this_val argc argv s).ret = undef :=
  ⟨rfl, rfl, rfl, rfl, rfl, rfl⟩

theorem JS_SetHostCallback_seq_world {W : Type} (cbs : List JSHostCallback) (s : State W) :
    (JS_SetHostCallback_seq cbs s).world = s.world := by
  induction cbs generalizing s with
  | nil => rfl
  | cons cb rest ih =>
    have step : JS_SetHostCallback_seq (cb :: rest) s =
        JS_SetHostCallback_seq rest (JS_SetHostCallback cb s) := rfl
    rw [step, ih]
    rfl

theorem JS_SetHostCallback_seq_slot {W : Type} (cbs : List JSHostCallback) (s : State W)
    (hne : cbs ≠ []) :
    (JS_SetHostCallback_seq cbs s).host_callback = cbs.getLast hne := by
  induction cbs generalizing s with
  | nil => exact absurd rfl hne
  | cons cb rest ih =>
    have step : JS_SetHostCallback_seq (cb :: rest) s =
        JS_SetHostCallback_seq rest (JS_SetHostCallback cb s) := rfl
    cases rest with
    | nil => rfl
    | cons cb2 rest2 =>
      rw [step, ih (JS_SetHostCallback cb s) (List.cons_ne_nil cb2 rest2)]
      rfl

/-- C4: replacement semantics. Installing `A` and then `B` leaves the very
state that installing `B` alone leaves, so `js_load` behaves as if only `B` had
been installed: with `B` non-null it performs one indirect call, to `B`, and
returns what `B` returns, and no call goes to any other address. More
generally, after a non-empty run of `JS_SetHostCallback` calls the slot holds
the argument of the last call and the rest of the state is untouched. -/
theorem set_host_callback_replaces {Ctx V W : Type}
    (code : ForeignCode Ctx V W) (undef : V) (A B : JSHostCallback) (hB : B ≠ NULL)
    (ctx : Ctx) (this_val : V) (argc : Int) (argv : List V) (s : State W) :
    JS_SetHostCallback B (JS_SetHostCallback A s) = JS_SetHostCallback B s
      ∧ js_load code undef ctx this_val argc argv (JS_SetHostCallback B (JS_SetHostCallback A s)) =
          { ret := (code B ctx this_val argc argv (JS_SetHostCallback B s)).1
            st := (code B ctx this_val argc argv (JS_SetHostCallback B s)).2
            calls := [{ fn := B
                        args := { ctx := ctx, this_val := this_val, argc := argc, argv := argv } }] }
      ∧ (∀ i ∈ (js_load code undef ctx this_val argc argv
            (JS_SetHostCallback B (JS_SetHostCallback A s))).calls, i.fn = B)
      ∧ (∀ (cbs : List JSHostCallback) (hne : cbs ≠ []),
          (JS_SetHostCallback_seq cbs s).host_callback = cbs.getLast hne
            ∧ (JS_SetHostCallback_seq cbs s).world = s.world) := by
  have hstate : JS_SetHostCallback B (JS_SetHostCallback A s) = JS_SetHostCallback B s := rfl
  have hslot : (JS_SetHostCallback B s).host_callback ≠ NULL := hB
  have hload := js_load_of_ne_null code undef ctx this_val argc argv _ hslot
  refine ⟨hstate, ?_, ?_, ?_⟩
  · rw [hstate, hload]
    rfl
  · intro i hi
    rw [hstate, hload] at hi
    rw [List.mem_singleton.mp hi]
    rfl
  · intro cbs hne
    exact ⟨JS_SetHostCallback_seq_slot cbs s hne, JS_SetHostCallback_seq_world cbs s⟩

/-- Instance of C4: with `A = 2` (which would count a call in the world and
return `5 + 1`) installed first and `B = 1` (which returns `42`) installed
second, `js_load` returns `42`, calls only `B`, and leaves the world alone; and
after the run `[2, 0, 3, 1]` of installs the slot holds `1`. -/
theorem set_host_callback_replaces_witness :
    (1 : JSHostCallback) ≠ NULL ∧
      js_load sampleCode 0 7 5 1 [8]
          (JS_SetHostCallback 1 (JS_SetHostCallback 2 (initialState 0))) =
        { ret := 42, st := { host_callback := 1, world := 0 }
          calls := [{ fn := 1, args := { ctx := 7, this_val := 5, argc := 1, argv := [8] } }] } ∧
      (JS_SetHostCallback_seq [2, 0, 3, 1] (initialState 0)).host_callback = 1 :=
  ⟨by decide,
   (set_host_callback_replaces sampleCode 0 2 1 (by decide) 7 5 1 [8] (initialState 0)).2.1,
   ((set_host_callback_replaces sampleCode 0 2 1 (by decide) 7 5 1 [8]
      (initialState 0)).2.2.2 [2, 0, 3, 1] (by decide)).1⟩

/-- C5: clearing restores the default. For every callback `f`, after
`JS_SetHostCallback f` followed by `JS_SetHostCallback NULL` the slot is null,
`js_load` returns `JS_UNDEFINED` for every input, performs no indirect call (so
`f` is not invoked) and changes nothing; the state equals the one obtained
without ever installing `f`, and from the initial state it is the initial
state again. -/
theorem clearing_restores_default {Ctx V W : Type}
    (code : ForeignCode Ctx V W) (undef : V) (f : JSHostCallback)
    (ctx : Ctx) (this_val : V) (argc : Int) (argv : List V) (s : State W) (w : W) :
    (JS_SetHostCallback NULL (JS_SetHostCallback f s)).host_callback = NULL
      ∧ JS_SetHostCallback NULL (JS_SetHostCallback f s) = JS_SetHostCallback NULL s
      ∧ JS_SetHostCallback NULL (JS_SetHostCallback f (initialState w)) = initialState w
      ∧ js_load code undef ctx this_val argc argv
            (JS_SetHostCallback NULL (JS_SetHostCallback f s)) =
          { ret := undef, st := JS_SetHostCallback NULL s, calls := [] }
      ∧ js_load code undef ctx this_val argc argv
            (JS_SetHostCallback NULL (JS_SetHostCallback f (initialState w))) =
          js_load code undef ctx this_val argc argv (initialState w) := by
  refine ⟨rfl, rfl, rfl, ?_, rfl⟩
  exact js_load_of_eq_null code undef ctx this_val argc argv _ rfl

/-- C6: in the initial program state the host callback slot is null, and
`js_load` returns `JS_UNDEFINED` for every input, performing no indirect call
and leaving the state initial. -/
theorem initial_state_has_no_callback {Ctx V W : Type}
    (code : ForeignCode Ctx V W) (undef : V)
    (ctx : Ctx) (this_val : V) (argc : Int) (argv : List V) (w : W) :
    (initialState w).host_callback = NULL
      ∧ js_load code undef ctx this_val argc argv (initialState w) =
          { ret := undef, st := initialState w, calls := [] } :=
  ⟨rfl, js_load_of_eq_null code undef ctx this_val argc argv _ rfl⟩

/-- C7: the six stub builtins have no effect. For every state and every input,
the state after the call (the callback slot and the rest of the world) equals
the state before it, the body performs no indirect call, and a subsequent
`js_load` produces exactly what it would have produced without the stub call. -/
theorem stubs_have_no_effect {Ctx V W : Type} (code : ForeignCode Ctx V W) (undef : V)
    (ctx : Ctx) (this_val : V) (argc : Int) (argv : List V) (s : State W) :
    (∀ g ∈ [js_print undef, js_gc undef, js_date_now undef, js_performance_now undef,
              js_setTimeout undef, js_clearTimeout undef],
        (g ctx this_val argc argv s : Outcome Ctx V W).st = s
          ∧ (g ctx this_val argc argv s).st.host_callback = s.host_callback
          ∧ (g ctx this_val argc argv s).calls = []
          ∧ ∀ (ctx2 : Ctx) (this2 : V) (argc2 : Int) (argv2 : List V),
              js_load code undef ctx2 this2 argc2 argv2 (g ctx this_val argc argv s).st =
                js_load code undef ctx2 this2 argc2 argv2 s) := by
  intro g hg
  simp only [List.mem_cons, List.mem_singleton, List.not_mem_nil, or_false] at hg
  rcases hg with h | h | h | h | h | h <;> subst h <;>
    exact ⟨rfl, rfl, rfl, fun _ _ _ _ => rfl⟩

/-- Instance of C7: with the callback at address `2` installed, a call of
`js_setTimeout` leaves the state as it was, and the `js_load` that follows
produces what it produces without the stub call. -/
theorem stubs_have_no_effect_witness :
    (js_setTimeout 0 : NativeFn Nat Nat Nat) ∈
        [js_print 0, js_gc 0, js_date_now 0, js_performance_now 0, js_setTimeout 0,
          js_clearTimeout 0] ∧
      (js_setTimeout 0 7 5 2 [1, 2] (JS_SetHostCallback 2 (initialState 4))).st =
        { host_callback := 2, world := 4 } ∧
      js_load sampleCode 0 8 6 1 [3]
          (js_setTimeout 0 7 5 2 [1, 2] (JS_SetHostCallback 2 (initialState 4))).st =
        js_load sampleCode 0 8 6 1 [3] (JS_SetHostCallback 2 (initialState 4)) :=
  ⟨by simp,
   (stubs_have_no_effect sampleCode 0 7 5 2 [1, 2] (JS_SetHostCallback 2 (initialState 4))
      (js_setTimeout 0) (by simp)).1,
   (stubs_have_no_effect sampleCode 0 7 5 2 [1, 2] (JS_SetHostCallback 2 (initialState 4))
      (js_setTimeout 0) (by simp)).2.2.2 8 6 1 [3]⟩

/-- C8: the host callback slot is never cleared by `js_load`. The state after
a `js_load` call is exactly the state its callee left (or the state before the
call when the slot is null), so `js_load` writes nothing itself. Hence, for an
installed non-null callback `f` that does not change the slot, any run of
`js_load` calls is the same run of direct calls to `f` (each call forwards its
own arguments to `f`), the slot holds `f` after every call and at the end; and
when the slot is null, every call of a run returns `JS_UNDEFINED` and leaves
the state, slot included, as it was. -/
theorem js_load_never_clears_slot {Ctx V W : Type}
    (code : ForeignCode Ctx V W) (undef : V) (f : JSHostCallback) (hf : f ≠ NULL)
    (hkeep : ∀ (ctx : Ctx) (this_val : V) (argc : Int) (argv : List V) (s : State W),
      (code f ctx this_val argc argv s).2.host_callback = s.host_callback)
    (as : List (CallArgs Ctx V)) (s : State W) (hs : s.host_callback = f) :
    (∀ (ctx : Ctx) (this_val : V) (argc : Int) (argv : List V),
        (js_load code undef ctx this_val argc argv s).st = (code f ctx this_val argc argv s).2
          ∧ (js_load code undef ctx this_val argc argv s).st.host_callback = f)
      ∧ js_load_seq code undef as s = direct_call_seq code f as s
      ∧ (∀ o ∈ (js_load_seq code undef as s).1, o.st.host_callback = f)
      ∧ (js_load_seq code undef as s).2.host_callback = f
      ∧ (∀ t : State W, t.host_callback = NULL →
          js_load_seq code undef as t =
            (as.map (fun _ => { ret := undef, st := t, calls := [] }), t)) := by
  have hne : s.host_callback ≠ NULL := by rw [hs]; exact hf
  have hseq := js_load_seq_eq_direct code undef f hf hkeep as s hs
  have hslots := direct_call_seq_slot code f hkeep as s
  refine ⟨?_, hseq, ?_, ?_, ?_⟩
  · intro ctx this_val argc argv
    have hload := js_load_of_ne_null code undef ctx this_val argc argv s hne
    rw [hs] at hload
    rw [hload]
    exact ⟨rfl, (hkeep ctx this_val argc argv s).trans hs⟩
  · intro o ho
    rw [hseq] at ho
    exact (hslots.2 o ho).trans hs
  · rw [hseq]
    exact hslots.1.trans hs
  · intro t ht
    exact js_load_seq_of_eq_null code undef as t ht

/-- Instance of C8: the callback at address `2` counts its calls in the world
and never touches the slot; after three `js_load` calls the slot still holds
`2`, the world has counted three calls, and each call was forwarded. -/
theorem js_load_never_clears_slot_witness :
    (2 : JSHostCallback) ≠ NULL ∧
      (∀ (ctx this_val : Nat) (argc : Int) (argv : List Nat) (s : State Nat),
        (sampleCode 2 ctx this_val argc argv s).2.host_callback = s.host_callback) ∧
      (JS_SetHostCallback 2 (initialState 0)).host_callback = 2 ∧
      js_load_seq sampleCode 0
          [{ ctx := 7, this_val := 5, argc := 0, argv := [] },
           { ctx := 7, this_val := 1, argc := 2, argv := [3, 4] },
           { ctx := 8, this_val := 0, argc := -1, argv := [9] }]
          (JS_SetHostCallback 2 (initialState 0)) =
        ([{ ret := 5, st := { host_callback := 2, world := 1 }
            calls := [{ fn := 2, args := { ctx := 7, this_val := 5, argc := 0, argv := [] } }] },
          { ret := 3, st := { host_callback := 2, world := 2 }
            calls := [{ fn := 2, args := { ctx := 7, this_val := 1, argc := 2, argv := [3, 4] } }] },
          { ret := 1, st := { host_callback := 2, world := 3 }
            calls := [{ fn := 2, args := { ctx := 8, this_val := 0, argc := -1, argv := [9] } }] }],
         { host_callback := 2, world := 3 }) :=
  ⟨by decide, fun _ _ _ _ _ => rfl, rfl,
   (js_load_never_clears_slot sampleCode 0 2 (by decide) (fun _ _ _ _ _ => rfl)
      [{ ctx := 7, this_val := 5, argc := 0, argv := [] },
       { ctx := 7, this_val := 1, argc := 2, argv := [3, 4] },
       { ctx := 8, this_val := 0, argc := -1, argv := [9] }]
      (JS_SetHostCallback 2 (initialState 0)) rfl).2.1.trans rfl⟩

/-- C9: registering the defaults yields a table with exactly 7 entries, named
`print`, `gc`, `date_now`, `performance_now`, `load`, `set_timeout` and
`clear_timeout` (pairwise distinct), each resolving by name to its native
implementation; building the table has no side effect and its result does not
depend on the state, so two constructions give equal tables. -/
theorem register_default_functions_table {Ctx V W : Type}
    (code : ForeignCode Ctx V W) (undef : V) (s t : State W) :
    (register_default_functions code undef s).1.length = 7
      ∧ (register_default_functions code undef s).1.map Prod.fst =
          ["print", "gc", "date_now", "performance_now", "load", "set_timeout", "clear_timeout"]
      ∧ ((register_default_functions code undef s).1.map Prod.fst).Nodup
      ∧ (register_default_functions code undef s).1.lookup "print" = some (js_print undef)
      ∧ (register_default_functions code undef s).1.lookup "gc" = some (js_gc undef)
      ∧ (register_default_functions code undef s).1.lookup "date_now" = some (js_date_now undef)
      ∧ (register_default_functions code undef s).1.lookup "performance_now" =
          some (js_performance_now undef)
      ∧ (register_default_functions code undef s).1.lookup "load" = some (js_load code undef)
      ∧ (register_default_functions code undef s).1.lookup "set_timeout" =
          some (js_setTimeout undef)
      ∧ (register_default_functions code undef s).1.lookup "clear_timeout" =
          some (js_clearTimeout undef)
      ∧ (register_default_functions code undef s).2 = s
      ∧ (register_default_functions code undef s).1 = (register_default_functions code undef t).1 := by
  refine ⟨rfl, rfl, ?_, ?_, ?_, ?_, ?_, ?_, ?_, ?_, rfl, rfl⟩
  · show (["print", "gc", "date_now", "performance_now", "load", "set_timeout",
        "clear_timeout"] : List String).Nodup
    decide
  all_goals simp [register_default_functions, List.lookup]

end MQuickJS
